import Mathlib

/-
Shallow embedding of the event-loop core of src/main.rs (an egui + wgpu +
winit example).  The program is a single `main` function whose interesting
behaviour lives in the closure passed to `event_loop.run` (lines 79-192).
We model that closure as a pure function from the mutable state it captures
(the `surface_config` and the `control_flow` flag) and the per-event inputs
supplied by the external collaborators (winit, egui, wgpu) to the new state
together with the ordered trace of externally visible effects it performs.

Opaque platform values (texture formats, image data, primitive shapes,
scale factors, error messages) are represented by `Nat` tokens: the code
never computes with them, it only moves them around.
-/

namespace EguiWgpuExample

/-- The `wgpu::SurfaceConfiguration` record built at src/main.rs lines 54-62.
Field values other than `width`/`height` are opaque tokens. -/
structure SurfaceConfiguration where
  usage : Nat
  format : Nat
  width : Nat
  height : Nat
  present_mode : Nat
  alpha_mode : Nat
  view_formats : List Nat
  deriving DecidableEq, Repr

/-- The `egui_wgpu::renderer::ScreenDescriptor` built at src/main.rs
lines 129-132 from the current surface configuration and the window's
scale factor. -/
structure ScreenDescriptor where
  size_in_pixels : Nat × Nat
  pixels_per_point : Nat
  deriving DecidableEq, Repr

/-- The `egui::TexturesDelta` taken from `full_output.textures_delta`
(src/main.rs line 133): `set` pairs a texture id with opaque image data,
`free` lists texture ids to release. -/
structure TexturesDelta where
  set : List (Nat × Nat)
  free : List Nat
  deriving DecidableEq, Repr

/-- The data the external egui collaborator hands the frame cycle:
`paint_jobs` is the tessellation output `context.tessellate(full_output.shapes)`
(src/main.rs line 120, a list of opaque primitive tokens) and
`textures_delta` is `full_output.textures_delta` (line 133). -/
structure FullOutput where
  paint_jobs : List Nat
  textures_delta : TexturesDelta
  deriving DecidableEq, Repr

/-- Result of `surface.get_current_texture()` at src/main.rs line 93:
either a frame, or `wgpu::SurfaceError::Outdated`, or any other surface
error carrying an opaque message (matched at lines 95 and 101). -/
inductive AcquireResult where
  | ok
  | outdated
  | otherError (msg : Nat)
  deriving DecidableEq, Repr

/-- One externally visible action performed by the event-loop closure, in
program order.  Constructors follow the calls in src/main.rs lines 81-189. -/
inductive Effect where
  | create_view
  | take_egui_input
  | begin_frame
  | end_frame
  | tessellate
  | handle_platform_output
  | create_command_encoder
  | update_texture (tid : Nat) (delta : Nat)
  | update_buffers (paint_jobs : List Nat) (sd : ScreenDescriptor)
  | begin_render_pass
  | render (paint_jobs : List Nat) (sd : ScreenDescriptor)
  | end_render_pass
  | submit
  | present
  | free_texture (tid : Nat)
  | eprintln (msg : Nat)
  | configure (cfg : SurfaceConfiguration)
  | request_redraw
  deriving DecidableEq, Repr

/-- The mutable state the closure captures: the surface configuration
(mutated by `Resized`, src/main.rs lines 179-183) and whether
`*control_flow = ControlFlow::Exit` has been set (line 186). -/
structure AppState where
  surface_config : SurfaceConfiguration
  exit_requested : Bool
  deriving DecidableEq, Repr

/-- A winit window event as dispatched at src/main.rs lines 174-189. -/
inductive WinEvent where
  | Resized (width height : Nat)
  | CloseRequested
  | otherWindowEvent
  deriving DecidableEq, Repr

/-- The `egui_winit` response returned by `state.on_event` at
src/main.rs line 82; it is produced by the external UI collaborator, so we
treat it as part of the event input. -/
structure EventResponse where
  consumed : Bool
  repaint : Bool
  deriving DecidableEq, Repr

/-- A winit event together with the external collaborator outputs that the
closure reads while handling it: the acquisition result, the window's
current scale factor and the egui frame output for `RedrawRequested`, and
the `on_event` response for `WindowEvent`. -/
inductive Event where
  | RedrawRequested (acquire : AcquireResult) (scale_factor : Nat) (fo : FullOutput)
  | MainEventsCleared
  | WindowEvent (we : WinEvent) (response : EventResponse)
  | otherEvent
  deriving DecidableEq, Repr

/-- The `RedrawRequested(..)` arm, src/main.rs lines 92-170: acquire the
surface texture (line 93) and on failure return (silently for `Outdated`,
line 99; after `eprintln` otherwise, lines 102-103); on success run the
frame: view creation, egui frame, tessellation, encoder creation, the
`set` texture deltas (lines 134-136), `update_buffers` (line 138), the
render pass (lines 155-159), `queue.submit` (line 162), `present`
(line 165), and finally the `free` texture deltas (lines 167-169). -/
def redraw_requested (cfg : SurfaceConfiguration) (acquire : AcquireResult)
    (scale_factor : Nat) (fo : FullOutput) : List Effect :=
  match acquire with
  | .outdated => []
  | .otherError msg => [.eprintln msg]
  | .ok =>
    let screen_descriptor : ScreenDescriptor :=
      { size_in_pixels := (cfg.width, cfg.height), pixels_per_point := scale_factor }
    [.create_view, .take_egui_input, .begin_frame, .end_frame, .tessellate,
      .handle_platform_output, .create_command_encoder]
    ++ fo.textures_delta.set.map (fun d => Effect.update_texture d.1 d.2)
    ++ [.update_buffers fo.paint_jobs screen_descriptor,
      .begin_render_pass,
      .render fo.paint_jobs screen_descriptor,
      .end_render_pass, .submit, .present]
    ++ fo.textures_delta.free.map (fun tid => Effect.free_texture tid)

/-- One invocation of the event-loop closure, src/main.rs lines 79-192.
First the `if let WindowEvent` block (lines 81-89): request a redraw when
the response asks for a repaint and return early when the event was
consumed; then the `match event` dispatch (lines 91-191). -/
def handle_event (st : AppState) (ev : Event) : AppState × List Effect :=
  let pre : List Effect :=
    match ev with
    | .WindowEvent _ r => if r.repaint then [Effect.request_redraw] else []
    | _ => []
  let consumed : Bool :=
    match ev with
    | .WindowEvent _ r => r.consumed
    | _ => false
  if consumed then (st, pre)
  else
    match ev with
    | .RedrawRequested acquire scale_factor fo =>
      (st, pre ++ redraw_requested st.surface_config acquire scale_factor fo)
    | .MainEventsCleared => (st, pre ++ [Effect.request_redraw])
    | .WindowEvent we _ =>
      match we with
      | .Resized w h =>
        if w > 0 && h > 0 then
          let cfg := { st.surface_config with width := w, height := h }
          ({ st with surface_config := cfg }, pre ++ [Effect.configure cfg])
        else (st, pre)
      | .CloseRequested => ({ st with exit_requested := true }, pre)
      | .otherWindowEvent => (st, pre)
    | .otherEvent => (st, pre)

/-- Running the event loop over a list of events, threading the state and
concatenating the effect traces. -/
def run (st : AppState) : List Event → AppState × List Effect
  | [] => (st, [])
  | ev :: evs =>
    let s1 := handle_event st ev
    let s2 := run s1.1 evs
    (s2.1, s1.2 ++ s2.2)

/-- Is this effect a `set` texture-delta upload (`update_texture`)? -/
def Effect.is_update_texture : Effect → Bool
  | .update_texture _ _ => true
  | _ => false

/-- Does this effect record the frame's render pass
(`begin_render_pass` or `render`)? -/
def Effect.is_render_record : Effect → Bool
  | .begin_render_pass => true
  | .render _ _ => true
  | _ => false

/-- Is this effect the geometry upload (`update_buffers`)? -/
def Effect.is_update_buffers : Effect → Bool
  | .update_buffers _ _ => true
  | _ => false

/-- Is this effect the queue submission? -/
def Effect.is_submit : Effect → Bool
  | .submit => true
  | _ => false

/-- Is this effect the surface presentation? -/
def Effect.is_present : Effect → Bool
  | .present => true
  | _ => false

/-- Is this effect a `free` texture-delta release (`free_texture`)? -/
def Effect.is_free_texture : Effect → Bool
  | .free_texture _ => true
  | _ => false

/-- The ScreenDescriptor computed for a frame from the current surface
configuration and scale factor (src/main.rs lines 129-132). -/
def scr (cfg : SurfaceConfiguration) (scale_factor : Nat) : ScreenDescriptor :=
  { size_in_pixels := (cfg.width, cfg.height), pixels_per_point := scale_factor }

/-- The fixed effects of a successful frame before texture upload:
src/main.rs lines 106-126. -/
def ui_fx : List Effect :=
  [.create_view, .take_egui_input, .begin_frame, .end_frame, .tessellate,
    .handle_platform_output, .create_command_encoder]

/-- The `set` texture-delta uploads of a frame, src/main.rs lines 134-136. -/
def set_fx (fo : FullOutput) : List Effect :=
  fo.textures_delta.set.map (fun d => Effect.update_texture d.1 d.2)

/-- The fixed effects of a successful frame from geometry upload through
presentation: src/main.rs lines 138-165. -/
def draw_fx (cfg : SurfaceConfiguration) (scale_factor : Nat)
    (fo : FullOutput) : List Effect :=
  [.update_buffers fo.paint_jobs (scr cfg scale_factor), .begin_render_pass,
    .render fo.paint_jobs (scr cfg scale_factor),
    .end_render_pass, .submit, .present]

/-- The `free` texture-delta releases of a frame, src/main.rs
lines 167-169. -/
def free_fx (fo : FullOutput) : List Effect :=
  fo.textures_delta.free.map Effect.free_texture

/-- Concrete surface configuration used to instantiate theorems. -/
def cfg0 : SurfaceConfiguration :=
  { usage := 0, format := 1, width := 100, height := 80,
    present_mode := 2, alpha_mode := 3, view_formats := [] }

/-- Concrete application state used to instantiate theorems. -/
def st0 : AppState := { surface_config := cfg0, exit_requested := false }

/-- Concrete egui frame output with one `set` delta and one `free` delta. -/
def fo0 : FullOutput :=
  { paint_jobs := [5, 6], textures_delta := { set := [(7, 70)], free := [8] } }

/-- Concrete unconsumed, no-repaint event response. -/
def r0 : EventResponse := { consumed := false, repaint := false }

/-- Concrete consumed event response. -/
def rc : EventResponse := { consumed := true, repaint := true }

/-- If a predicate is false on every element of the left part of an
append, any position holding an element satisfying it lies in the right
part. -/
theorem idx_ge_of_false_on_left (q : Effect → Bool) (A B : List Effect)
    (hA : ∀ e ∈ A, q e = false) {j : Nat} {e : Effect}
    (hj : (A ++ B)[j]? = some e) (hq : q e = true) : A.length ≤ j := by
  by_contra hlt
  push_neg at hlt
  rw [List.getElem?_append_left hlt] at hj
  have hmem := List.getElem?_mem hj
  have := hA e hmem
  simp [this] at hq

/-- If a predicate is false on every element of the right part of an
append, any position holding an element satisfying it lies in the left
part. -/
theorem idx_lt_of_false_on_right (q : Effect → Bool) (A B : List Effect)
    (hB : ∀ e ∈ B, q e = false) {j : Nat} {e : Effect}
    (hj : (A ++ B)[j]? = some e) (hq : q e = true) : j < A.length := by
  by_contra hge
  push_neg at hge
  rw [List.getElem?_append_right hge] at hj
  have hmem := List.getElem?_mem hj
  have := hB e hmem
  simp [this] at hq

/-- The successful-acquisition trace, split right after the `set` texture
uploads (between src/main.rs line 136 and line 138). -/
theorem redraw_ok_split_after_set (cfg : SurfaceConfiguration)
    (scale_factor : Nat) (fo : FullOutput) :
    redraw_requested cfg .ok scale_factor fo =
      (ui_fx ++ set_fx fo) ++ (draw_fx cfg scale_factor fo ++ free_fx fo) := by
  simp [redraw_requested, scr, ui_fx, set_fx, draw_fx, free_fx]

/-- The successful-acquisition trace, split right before the `free`
texture releases (between src/main.rs line 165 and line 167). -/
theorem redraw_ok_split_before_free (cfg : SurfaceConfiguration)
    (scale_factor : Nat) (fo : FullOutput) :
    redraw_requested cfg .ok scale_factor fo =
      (ui_fx ++ set_fx fo ++ draw_fx cfg scale_factor fo) ++ free_fx fo := by
  simp [redraw_requested, scr, ui_fx, set_fx, draw_fx, free_fx]

/-- Nothing up to and including the `set` uploads records the render pass. -/
theorem no_render_record_before_draw (fo : FullOutput) :
    ∀ e ∈ ui_fx ++ set_fx fo, e.is_render_record = false := by
  intro e he
  rcases List.mem_append.1 he with h | h
  · fin_cases h <;> rfl
  · obtain ⟨d, -, rfl⟩ := List.mem_map.1 h
    rfl

/-- No `set` upload occurs once the draw portion of the trace starts. -/
theorem no_update_texture_from_draw (cfg : SurfaceConfiguration)
    (scale_factor : Nat) (fo : FullOutput) :
    ∀ e ∈ draw_fx cfg scale_factor fo ++ free_fx fo,
      e.is_update_texture = false := by
  intro e he
  rcases List.mem_append.1 he with h | h
  · fin_cases h <;> rfl
  · obtain ⟨t, -, rfl⟩ := List.mem_map.1 h
    rfl

/-- No `free` release occurs before the trailing `free` loop. -/
theorem no_free_texture_before_free (cfg : SurfaceConfiguration)
    (scale_factor : Nat) (fo : FullOutput) :
    ∀ e ∈ ui_fx ++ set_fx fo ++ draw_fx cfg scale_factor fo,
      e.is_free_texture = false := by
  intro e he
  rcases List.mem_append.1 he with h | h
  · rcases List.mem_append.1 h with h2 | h2
    · fin_cases h2 <;> rfl
    · obtain ⟨d, -, rfl⟩ := List.mem_map.1 h2
      rfl
  · fin_cases h <;> rfl

/-- The trailing `free` loop contains no queue submission. -/
theorem no_submit_in_free (fo : FullOutput) :
    ∀ e ∈ free_fx fo, e.is_submit = false := by
  intro e he
  obtain ⟨t, -, rfl⟩ := List.mem_map.1 he
  rfl

/-- The trailing `free` loop does not present. -/
theorem no_present_in_free (fo : FullOutput) :
    ∀ e ∈ free_fx fo, e.is_present = false := by
  intro e he
  obtain ⟨t, -, rfl⟩ := List.mem_map.1 he
  rfl

/-- Claim C1: in the effect trace of every successfully acquired frame,
every `set` texture-delta upload (`update_texture`) occurs at an earlier
position than the recording of the render pass, and the queue submission
occurs at an earlier position than every `free` texture release. -/
theorem set_before_render_and_free_after_submit
    (cfg : SurfaceConfiguration) (scale_factor : Nat) (fo : FullOutput)
    (i j : Nat) (ei ej : Effect)
    (hi : (redraw_requested cfg .ok scale_factor fo)[i]? = some ei)
    (hj : (redraw_requested cfg .ok scale_factor fo)[j]? = some ej) :
    (ei.is_update_texture = true → ej.is_render_record = true → i < j)
    ∧ (ei.is_submit = true → ej.is_free_texture = true → i < j) := by
  constructor
  · intro hset hrender
    rw [redraw_ok_split_after_set] at hi hj
    have hup := idx_lt_of_false_on_right Effect.is_update_texture _ _
      (no_update_texture_from_draw cfg scale_factor fo) hi hset
    have hrd := idx_ge_of_false_on_left Effect.is_render_record _ _
      (no_render_record_before_draw fo) hj hrender
    exact lt_of_lt_of_le hup hrd
  · intro hsub hfree
    rw [redraw_ok_split_before_free] at hi hj
    have hsb := idx_lt_of_false_on_right Effect.is_submit _ _
      (no_submit_in_free fo) hi hsub
    have hfr := idx_ge_of_false_on_left Effect.is_free_texture _ _
      (no_free_texture_before_free cfg scale_factor fo) hj hfree
    exact lt_of_lt_of_le hsb hfr

/-- Witness for C1 at a concrete frame: in the trace for `cfg0`/`fo0` the
`set` upload sits at index 7, the render at index 10, the submit at
index 12 and the free at index 14. -/
theorem set_before_render_and_free_after_submit_witness :
    7 < 10 ∧ 12 < 14 :=
  ⟨(set_before_render_and_free_after_submit cfg0 1 fo0 7 10
      (.update_texture 7 70) (.render [5, 6] (scr cfg0 1))
      (by decide) (by decide)).1 (by decide) (by decide),
    (set_before_render_and_free_after_submit cfg0 1 fo0 12 14
      .submit (.free_texture 8)
      (by decide) (by decide)).2 (by decide) (by decide)⟩

/-- Claim C2 counterexample: in the concrete frame `cfg0`/`fo0` the trace
holds `present` at index 13 and the `free_texture` release at index 14, so
it is false that every `free` release precedes `present`: the code calls
`present()` (src/main.rs line 165) before the `free` loop (lines 167-169). -/
theorem free_before_present_counterexample :
    ¬ (∀ i j : Nat,
        (redraw_requested cfg0 .ok 1 fo0)[i]? = some (Effect.free_texture 8) →
        (redraw_requested cfg0 .ok 1 fo0)[j]? = some Effect.present →
        i < j) := by
  intro h
  have h1413 := h 14 13 (by decide) (by decide)
  omega

/-- Claim C2 amended: in every frame cycle, `present` is called first and
the `free` texture deltas are applied after it (present-then-free within
the same tick). -/
theorem present_before_free
    (cfg : SurfaceConfiguration) (scale_factor : Nat) (fo : FullOutput)
    (i j : Nat) (ei ej : Effect)
    (hi : (redraw_requested cfg .ok scale_factor fo)[i]? = some ei)
    (hj : (redraw_requested cfg .ok scale_factor fo)[j]? = some ej)
    (hp : ei.is_present = true) (hf : ej.is_free_texture = true) : i < j := by
  rw [redraw_ok_split_before_free] at hi hj
  have hpr := idx_lt_of_false_on_right Effect.is_present _ _
    (no_present_in_free fo) hi hp
  have hfr := idx_ge_of_false_on_left Effect.is_free_texture _ _
    (no_free_texture_before_free cfg scale_factor fo) hj hf
  exact lt_of_lt_of_le hpr hfr

/-- Witness for the amended C2 at the concrete frame `cfg0`/`fo0`:
`present` sits at index 13, the `free` release at index 14. -/
theorem present_before_free_witness : 13 < 14 :=
  present_before_free cfg0 1 fo0 13 14 Effect.present (.free_texture 8)
    (by decide) (by decide) (by decide) (by decide)

/-- No frame cycle ever reconfigures the surface. -/
theorem no_configure_in_redraw (cfg c : SurfaceConfiguration)
    (acquire : AcquireResult) (scale_factor : Nat) (fo : FullOutput) :
    Effect.configure c ∉ redraw_requested cfg acquire scale_factor fo := by
  cases acquire <;> simp [redraw_requested]

/-- Any `configure` effect emitted by a single event comes from the
`Resized` branch with both dimensions positive, so it carries a
configuration with positive width and height. -/
theorem configure_mem_handle_event (st : AppState) (ev : Event)
    (cfg : SurfaceConfiguration)
    (h : Effect.configure cfg ∈ (handle_event st ev).2) :
    0 < cfg.width ∧ 0 < cfg.height := by
  cases ev with
  | RedrawRequested acquire scale_factor fo =>
    simp [handle_event] at h
    exact absurd h (no_configure_in_redraw st.surface_config cfg acquire scale_factor fo)
  | MainEventsCleared =>
    simp [handle_event] at h
  | WindowEvent we r =>
    obtain ⟨c, rp⟩ := r
    cases we with
    | Resized w hgt =>
      cases c <;> cases rp <;>
        [skip; skip; (simp [handle_event] at h); (simp [handle_event] at h)] <;>
      · by_cases hwh : w > 0 && hgt > 0
        · simp only [handle_event, hwh] at h
          simp at h
          subst h
          simp only [Bool.and_eq_true, decide_eq_true_eq] at hwh
          exact ⟨hwh.1, hwh.2⟩
        · simp [handle_event, hwh] at h
    | CloseRequested =>
      cases c <;> cases rp <;> simp [handle_event] at h
    | otherWindowEvent =>
      cases c <;> cases rp <;> simp [handle_event] at h
  | otherEvent =>
    simp [handle_event] at h

/-- Over any run of the event loop, every surface reconfiguration uses
positive dimensions. -/
theorem configure_positive_in_run (evs : List Event) (s0 : AppState)
    (cfg : SurfaceConfiguration)
    (h : Effect.configure cfg ∈ (run s0 evs).2) :
    0 < cfg.width ∧ 0 < cfg.height := by
  induction evs generalizing s0 with
  | nil => simp [run] at h
  | cons ev evs ih =>
    simp only [run, List.mem_append] at h
    rcases h with h | h
    · exact configure_mem_handle_event s0 ev cfg h
    · exact ih _ h

/-- Claim C3: a resize with a zero dimension is a no-op (state unchanged,
no configure effect, only the possible repaint-request from the egui
response); a resize with both dimensions positive stores the new width and
height and reconfigures the surface with the updated configuration; and in
any run of the event loop the surface is never reconfigured with a zero
dimension. -/
theorem resize_zero_noop_positive_reconfigures
    (st : AppState) (w h : Nat) (r : EventResponse) (evs : List Event)
    (s0 : AppState) (cfg : SurfaceConfiguration)
    (hc : r.consumed = false) :
    ((w = 0 ∨ h = 0) →
      handle_event st (.WindowEvent (.Resized w h) r) =
        (st, if r.repaint then [Effect.request_redraw] else []))
    ∧ (0 < w → 0 < h →
      (handle_event st (.WindowEvent (.Resized w h) r)).1.surface_config =
          { st.surface_config with width := w, height := h }
        ∧ Effect.configure { st.surface_config with width := w, height := h }
            ∈ (handle_event st (.WindowEvent (.Resized w h) r)).2)
    ∧ (Effect.configure cfg ∈ (run s0 evs).2 →
        0 < cfg.width ∧ 0 < cfg.height) := by
  refine ⟨?zero, ?pos, configure_positive_in_run evs s0 cfg⟩
  · intro hz
    have hwh : (w > 0 && h > 0) = false := by
      rcases hz with rfl | rfl <;> simp
    simp [handle_event, hc, hwh]
  · intro hw hh
    have hwh : (w > 0 && h > 0) = true := by simp [hw, hh]
    simp [handle_event, hc, hwh]

/-- Witness for C3: a `Resized 0 50` event leaves `st0` unchanged with an
empty trace; a `Resized 3 4` event stores 3 by 4 and emits the matching
configure effect; a run consisting of that resize only configures with
positive dimensions. -/
theorem resize_zero_noop_positive_reconfigures_witness :
    (handle_event st0 (.WindowEvent (.Resized 0 50) r0) = (st0, []))
    ∧ ((handle_event st0 (.WindowEvent (.Resized 3 4) r0)).1.surface_config =
          { st0.surface_config with width := 3, height := 4 }
        ∧ Effect.configure { st0.surface_config with width := 3, height := 4 }
            ∈ (handle_event st0 (.WindowEvent (.Resized 3 4) r0)).2)
    ∧ ((0:Nat) < 3 ∧ (0:Nat) < 4) :=
  ⟨(resize_zero_noop_positive_reconfigures st0 0 50 r0 [] st0 cfg0 rfl).1
      (Or.inl rfl),
    (resize_zero_noop_positive_reconfigures st0 3 4 r0 [] st0 cfg0 rfl).2.1
      (by decide) (by decide),
    (resize_zero_noop_positive_reconfigures st0 3 4 r0
        [Event.WindowEvent (.Resized 3 4) r0] st0
        { cfg0 with width := 3, height := 4 } rfl).2.2 (by decide)⟩

/-- Claim C4: whenever surface acquisition fails (Outdated or any other
error), the tick performs no texture upload, no geometry upload, no render
pass recording, no submission, no present and no texture release, and the
captured state is not mutated. -/
theorem acquire_failure_stops_frame (st : AppState) (acquire : AcquireResult)
    (scale_factor : Nat) (fo : FullOutput) (hne : acquire ≠ .ok) :
    (handle_event st (.RedrawRequested acquire scale_factor fo)).1 = st
    ∧ ((handle_event st (.RedrawRequested acquire scale_factor fo)).2).all
        (fun fx => !fx.is_update_texture && !fx.is_update_buffers
          && !fx.is_render_record && !fx.is_submit && !fx.is_present
          && !fx.is_free_texture) = true := by
  cases acquire with
  | ok => exact absurd rfl hne
  | outdated => exact ⟨rfl, by simp [handle_event, redraw_requested]⟩
  | otherError msg =>
    refine ⟨rfl, ?check⟩
    simp [handle_event, redraw_requested, Effect.is_update_texture,
      Effect.is_update_buffers, Effect.is_render_record, Effect.is_submit,
      Effect.is_present, Effect.is_free_texture]

/-- Witness for C4 at the `Outdated` failure on the concrete state. -/
theorem acquire_failure_stops_frame_witness :
    (handle_event st0 (.RedrawRequested .outdated 1 fo0)).1 = st0
    ∧ ((handle_event st0 (.RedrawRequested .outdated 1 fo0)).2).all
        (fun fx => !fx.is_update_texture && !fx.is_update_buffers
          && !fx.is_render_record && !fx.is_submit && !fx.is_present
          && !fx.is_free_texture) = true :=
  acquire_failure_stops_frame st0 .outdated 1 fo0 (by decide)

/-- Claim C5: an `Outdated` acquisition failure drops the frame silently
(empty trace, in particular no `eprintln`); any other acquisition failure
emits exactly the `eprintln` report with its reason and drops the frame;
in both cases the captured state, including the `control_flow` exit flag,
is unchanged, so the event loop keeps running. -/
theorem outdated_silent_other_reported (st : AppState)
    (scale_factor msg : Nat) (fo : FullOutput) :
    handle_event st (.RedrawRequested .outdated scale_factor fo) = (st, [])
    ∧ handle_event st (.RedrawRequested (.otherError msg) scale_factor fo) =
        (st, [Effect.eprintln msg]) := by
  exact ⟨by simp [handle_event, redraw_requested],
    by simp [handle_event, redraw_requested]⟩

/-- Claim C6 counterexample: resizing the concrete state `st0` (whose
surface is 100 by 80) to its current 100 by 80 still emits a `configure`
effect — src/main.rs lines 179-183 reconfigure whenever both dimensions
are positive, with no comparison against the current size — so the claim
that no redundant reconfiguration side effect occurs is false. -/
theorem resize_current_size_counterexample :
    st0.surface_config.width = 100 ∧ st0.surface_config.height = 80
    ∧ (handle_event st0 (.WindowEvent (.Resized 100 80) r0)).2 =
        [Effect.configure st0.surface_config]
    ∧ (handle_event st0 (.WindowEvent (.Resized 100 80) r0)).2 ≠ [] := by
  refine ⟨rfl, rfl, by decide, by decide⟩

/-- Claim C6 amended: resizing to the surface's current (positive)
dimensions leaves the stored configuration and the rest of the state
unchanged, but it does perform one redundant reconfiguration: the trace is
exactly one `configure` effect carrying the unchanged configuration. -/
theorem resize_current_size_amended (st : AppState) (r : EventResponse)
    (hc : r.consumed = false) (hr : r.repaint = false)
    (hw : 0 < st.surface_config.width) (hh : 0 < st.surface_config.height) :
    handle_event st
        (.WindowEvent
          (.Resized st.surface_config.width st.surface_config.height) r) =
      (st, [Effect.configure st.surface_config]) := by
  have hwh : (st.surface_config.width > 0 && st.surface_config.height > 0)
      = true := by simp [hw, hh]
  simp [handle_event, hc, hr, hwh]

/-- Witness for the amended C6 on the concrete state `st0`. -/
theorem resize_current_size_amended_witness :
    handle_event st0 (.WindowEvent (.Resized 100 80) r0) =
      (st0, [Effect.configure cfg0]) :=
  resize_current_size_amended st0 r0 rfl rfl (by decide) (by decide)

/-- Claim C7: the ScreenDescriptor handed to `update_buffers` and `render`
in a frame is recomputed from the surface configuration current at that
tick (after any earlier events have been handled) and from the window's
scale factor read during the tick, never a stale value. -/
theorem screen_descriptor_recomputed (st : AppState) (evs : List Event)
    (scale_factor : Nat) (fo : FullOutput) (jobs : List Nat)
    (sd : ScreenDescriptor)
    (h : Effect.update_buffers jobs sd ∈
          (handle_event (run st evs).1
            (.RedrawRequested .ok scale_factor fo)).2
        ∨ Effect.render jobs sd ∈
          (handle_event (run st evs).1
            (.RedrawRequested .ok scale_factor fo)).2) :
    sd = scr (run st evs).1.surface_config scale_factor := by
  rcases h with h | h <;>
  · simp [handle_event, redraw_requested, scr] at h
    simp [scr, h.2]

/-- Witness for C7: after a run containing a resize to 7 by 9, the frame's
ScreenDescriptor is built from the post-resize configuration. -/
theorem screen_descriptor_recomputed_witness :
    ScreenDescriptor.mk (7, 9) 2 =
      scr (run st0 [Event.WindowEvent (.Resized 7 9) r0]).1.surface_config 2 :=
  screen_descriptor_recomputed st0 [Event.WindowEvent (.Resized 7 9) r0]
    2 fo0 fo0.paint_jobs (ScreenDescriptor.mk (7, 9) 2) (Or.inr (by decide))

/-- Claim C8: the renderer is invoked exactly on the tessellation output
`paint_jobs`: the frame trace contains a `render` of `fo.paint_jobs`
unmodified and in order, and every `render` in the trace carries exactly
that sequence. -/
theorem renderer_receives_tessellation (cfg : SurfaceConfiguration)
    (scale_factor : Nat) (fo : FullOutput) :
    Effect.render fo.paint_jobs (scr cfg scale_factor) ∈
        redraw_requested cfg .ok scale_factor fo
    ∧ ∀ jobs sd,
        Effect.render jobs sd ∈ redraw_requested cfg .ok scale_factor fo →
        jobs = fo.paint_jobs := by
  constructor
  · simp [redraw_requested, scr]
  · intro jobs sd h
    simp [redraw_requested] at h
    exact h.1

/-- Witness for C8 on the concrete frame `cfg0`/`fo0`. -/
theorem renderer_receives_tessellation_witness :
    Effect.render fo0.paint_jobs (scr cfg0 1) ∈ redraw_requested cfg0 .ok 1 fo0
    ∧ [5, 6] = fo0.paint_jobs :=
  ⟨(renderer_receives_tessellation cfg0 1 fo0).1,
    (renderer_receives_tessellation cfg0 1 fo0).2 [5, 6] (scr cfg0 1)
      (by decide)⟩

/-- Claim C9: a dispatched resize mutates only the width and height of the
surface configuration; usage, format, present_mode, alpha_mode and
view_formats survive every resize, and when both dimensions are positive
the new width and height are stored. -/
theorem resize_mutates_only_dimensions (st : AppState) (w h : Nat)
    (r : EventResponse) (hc : r.consumed = false) :
    ((handle_event st (.WindowEvent (.Resized w h) r)).1.surface_config.usage
        = st.surface_config.usage
      ∧ (handle_event st
          (.WindowEvent (.Resized w h) r)).1.surface_config.format
        = st.surface_config.format
      ∧ (handle_event st
          (.WindowEvent (.Resized w h) r)).1.surface_config.present_mode
        = st.surface_config.present_mode
      ∧ (handle_event st
          (.WindowEvent (.Resized w h) r)).1.surface_config.alpha_mode
        = st.surface_config.alpha_mode
      ∧ (handle_event st
          (.WindowEvent (.Resized w h) r)).1.surface_config.view_formats
        = st.surface_config.view_formats)
    ∧ (0 < w → 0 < h →
      (handle_event st (.WindowEvent (.Resized w h) r)).1.surface_config.width
          = w
        ∧ (handle_event st
            (.WindowEvent (.Resized w h) r)).1.surface_config.height = h) := by
  by_cases hwh : w > 0 && h > 0
  · constructor
    · simp [handle_event, hc, hwh]
    · intro hw hh
      simp [handle_event, hc, hwh]
  · constructor
    · simp [handle_event, hc, hwh]
    · intro hw hh
      exact absurd (by simp [hw, hh]) hwh

/-- Witness for C9 on a resize of the concrete state `st0` to 3 by 4. -/
theorem resize_mutates_only_dimensions_witness :
    ((handle_event st0 (.WindowEvent (.Resized 3 4) r0)).1.surface_config.usage
        = st0.surface_config.usage
      ∧ (handle_event st0
          (.WindowEvent (.Resized 3 4) r0)).1.surface_config.format
        = st0.surface_config.format
      ∧ (handle_event st0
          (.WindowEvent (.Resized 3 4) r0)).1.surface_config.present_mode
        = st0.surface_config.present_mode
      ∧ (handle_event st0
          (.WindowEvent (.Resized 3 4) r0)).1.surface_config.alpha_mode
        = st0.surface_config.alpha_mode
      ∧ (handle_event st0
          (.WindowEvent (.Resized 3 4) r0)).1.surface_config.view_formats
        = st0.surface_config.view_formats)
    ∧ ((handle_event st0 (.WindowEvent (.Resized 3 4) r0)).1.surface_config.width
        = 3
      ∧ (handle_event st0
          (.WindowEvent (.Resized 3 4) r0)).1.surface_config.height = 4) :=
  ⟨(resize_mutates_only_dimensions st0 3 4 r0 rfl).1,
    (resize_mutates_only_dimensions st0 3 4 r0 rfl).2 (by decide) (by decide)⟩

/-- Claim C10: when the egui integration reports a window event as
consumed, the handler returns before the application's own dispatch: the
state (surface configuration and exit flag) is unchanged and the trace
holds at most the repaint-triggered redraw request, so a consumed
`Resized` never reconfigures and a consumed `CloseRequested` never
requests loop exit. -/
theorem consumed_event_skips_dispatch (st : AppState) (we : WinEvent)
    (r : EventResponse) (hc : r.consumed = true) :
    (handle_event st (.WindowEvent we r)).1 = st
    ∧ (handle_event st (.WindowEvent we r)).2 =
        (if r.repaint then [Effect.request_redraw] else []) := by
  constructor <;> simp [handle_event, hc]

/-- Witness for C10: a consumed `CloseRequested` and a consumed `Resized`
both leave `st0` untouched and only request a redraw. -/
theorem consumed_event_skips_dispatch_witness :
    ((handle_event st0 (.WindowEvent .CloseRequested rc)).1 = st0
      ∧ (handle_event st0 (.WindowEvent .CloseRequested rc)).2 =
          [Effect.request_redraw])
    ∧ ((handle_event st0 (.WindowEvent (.Resized 640 480) rc)).1 = st0
      ∧ (handle_event st0 (.WindowEvent (.Resized 640 480) rc)).2 =
          [Effect.request_redraw]) :=
  ⟨consumed_event_skips_dispatch st0 .CloseRequested rc rfl,
    consumed_event_skips_dispatch st0 (.Resized 640 480) rc rfl⟩

end EguiWgpuExample
